import Mathlib

/-
  Verification development for the ovm_vm Ansible module
  (library/ovm_vm.py): a REST client for Oracle VM Manager that
  creates, deletes, starts and stops virtual machines and polls an
  asynchronous job resource until completion.

  The embedding is shallow: the remote manager is an oracle (`Env`)
  supplying the listing returned by each successive GET on a
  listing endpoint, the job id returned by each successive mutating
  call, and the sequence of job-status documents returned by the
  polls of a given job id.  Every REST request the module issues is
  recorded in a trace (`RestCall`); request bodies travel out of
  band (`VmSpec`) since no claim concerns their wire encoding.
-/

/-- Element of an id listing (GET base/type/id): the remote returns
    records carrying at least a display name and the opaque id value;
    the module reads fields name and value. -/
structure IdPair where
  name : String
  value : String
deriving Repr, DecidableEq

/-- Job-status document returned by GET base/Job/jobid.  The module
    reads summaryDone, jobRunState, id.value, error and resultId. -/
structure Job where
  summaryDone : Bool
  jobRunState : String
  idValue : String
  error : String
  resultId : String
deriving Repr, DecidableEq

/-- Result record built by the module: a Python dict whose keys
    changed, failed, msg, resultId are each present or absent,
    modelled with Option fields (none = key absent). -/
structure Result where
  changed : Option Bool := none
  failed : Option Bool := none
  msg : Option String := none
  resultId : Option String := none
deriving Repr, DecidableEq

/-- One REST request issued by the module, identified by its path
    shape; request bodies are not part of the call trace. -/
inductive RestCall where
  | getListing (objectType : String)
  | post (objectType : String)
  | deleteCall (objectType : String) (objectId : String)
  | postChild (objectType objectId childType : String)
  | putChild (objectType objectId childType : String)
  | getJob (jobId : String)
deriving Repr, DecidableEq

/-- Outcome of OVMRestClient.monitor_job on a finite list of polled
    job documents: pending means the list was exhausted with the loop
    still running (the Python loop would keep polling); done r means
    the Python function returned, with r = none for the implicit
    None return reached by the break on an unrecognized state. -/
inductive MonitorOutcome where
  | pending
  | done (r : Option Result)
deriving Repr, DecidableEq

/-- Failure record returned by monitor_job on jobRunState FAILURE:
    the message is rendered from the format string
    Job %s failed with: %s. using id.value and error. -/
def failureRecord (j : Job) : Result :=
  { changed := some false, failed := some true,
    msg := some ("Job " ++ j.idValue ++ " failed with: " ++ j.error ++ "."),
    resultId := none }

/-- Success record returned by monitor_job on jobRunState SUCCESS. -/
def successRecord (j : Job) : Result :=
  { changed := some true, failed := some false, msg := none,
    resultId := some j.resultId }

/-- OVMRestClient.monitor_job: loop polling GET base/Job/jobid.  The
    argument list is the successive job documents the remote returns;
    each iteration consumes one and appends one getJob call to the
    trace.  If summaryDone is falsy the loop continues; otherwise
    FAILURE and SUCCESS return records, RUNNING continues, and any
    other state breaks out of the loop (implicit None return). -/
def OVMRestClient.monitor_job (jobId : String) : List Job → List RestCall × MonitorOutcome
  | [] => ([], .pending)
  | j :: rest =>
    if j.summaryDone then
      if j.jobRunState = "FAILURE" then
        ([.getJob jobId], .done (some (failureRecord j)))
      else if j.jobRunState = "SUCCESS" then
        ([.getJob jobId], .done (some (successRecord j)))
      else if j.jobRunState = "RUNNING" then
        let o := OVMRestClient.monitor_job jobId rest
        (.getJob jobId :: o.1, o.2)
      else
        ([.getJob jobId], .done none)
    else
      let o := OVMRestClient.monitor_job jobId rest
      (.getJob jobId :: o.1, o.2)

/-- OVMRestClient.get_id_for_name, scan part: iterate over the
    elements of the listing returned by GET base/type/id and return
    the first element whose name equals the argument, else None. -/
def OVMRestClient.get_id_for_name : List IdPair → String → Option IdPair
  | [], _ => none
  | element :: rest, object_name =>
    if element.name = object_name then some element
    else OVMRestClient.get_id_for_name rest object_name

/-- The job document at which the polling loop stops consuming input:
    the first one with summaryDone true and jobRunState other than
    RUNNING.  Its jobRunState is the terminal state of the poll. -/
def stopState (polls : List Job) : Option String :=
  (polls.find? (fun j => j.summaryDone && !(j.jobRunState == "RUNNING"))).map
    (fun j => j.jobRunState)

theorem monitor_job_skip (jobId : String) (x : Job) (rest : List Job)
    (hx : x.summaryDone = false ∨ x.jobRunState = "RUNNING") :
    OVMRestClient.monitor_job jobId (x :: rest) =
      (.getJob jobId :: (OVMRestClient.monitor_job jobId rest).1,
       (OVMRestClient.monitor_job jobId rest).2) := by
  rcases hx with h | h <;> simp [OVMRestClient.monitor_job, h]

theorem monitor_job_skip_all (jobId : String) (pre rest : List Job)
    (hpre : ∀ x ∈ pre, x.summaryDone = false ∨ x.jobRunState = "RUNNING") :
    (OVMRestClient.monitor_job jobId (pre ++ rest)).2 =
      (OVMRestClient.monitor_job jobId rest).2 := by
  induction pre with
  | nil => rfl
  | cons x xs ih =>
    have hx := hpre x (by simp)
    rw [List.cons_append, monitor_job_skip jobId x (xs ++ rest) hx]
    exact ih (fun y hy => hpre y (by simp [hy]))

theorem monitor_job_find (jobId : String) (polls : List Job) :
    (polls.find? (fun j => j.summaryDone && !(j.jobRunState == "RUNNING")) = none →
       (OVMRestClient.monitor_job jobId polls).2 = .pending) ∧
    (∀ j, polls.find? (fun j => j.summaryDone && !(j.jobRunState == "RUNNING")) = some j →
       (OVMRestClient.monitor_job jobId polls).2 =
         (if j.jobRunState = "FAILURE" then .done (some (failureRecord j))
          else if j.jobRunState = "SUCCESS" then .done (some (successRecord j))
          else .done none)) := by
  induction polls with
  | nil =>
    constructor
    · intro _; rfl
    · intro j h; simp [List.find?] at h
  | cons x rest ih =>
    by_cases hd : (x.summaryDone && !(x.jobRunState == "RUNNING")) = true
    · have hs : x.summaryDone = true := by
        have := hd
        simp [Bool.and_eq_true] at this
        exact this.1
      have hr : ¬x.jobRunState = "RUNNING" := by
        have := hd
        simp [Bool.and_eq_true, Bool.not_eq_true', beq_iff_eq] at this
        exact this.2
      constructor
      · intro h
        rw [@List.find?_cons_of_pos Job
          (fun j => j.summaryDone && !(j.jobRunState == "RUNNING")) x rest hd] at h
        exact absurd h (by simp)
      · intro j h
        rw [@List.find?_cons_of_pos Job
          (fun j => j.summaryDone && !(j.jobRunState == "RUNNING")) x rest hd] at h
        have hxj : x = j := by injection h
        subst hxj
        by_cases hF : x.jobRunState = "FAILURE"
        · simp [OVMRestClient.monitor_job, hs, hF]
        · by_cases hS : x.jobRunState = "SUCCESS"
          · simp [OVMRestClient.monitor_job, hs, hF, hS]
          · simp [OVMRestClient.monitor_job, hs, hF, hS, hr]
    · have hx : x.summaryDone = false ∨ x.jobRunState = "RUNNING" := by
        simp [Bool.and_eq_true, Bool.not_eq_true', beq_iff_eq] at hd
        by_cases hs : x.summaryDone = true
        · exact Or.inr (hd hs)
        · exact Or.inl (by simpa using hs)
      constructor
      · intro h
        rw [@List.find?_cons_of_neg Job
          (fun j => j.summaryDone && !(j.jobRunState == "RUNNING")) x rest hd] at h
        rw [monitor_job_skip jobId x rest hx]
        exact ih.1 h
      · intro j h
        rw [@List.find?_cons_of_neg Job
          (fun j => j.summaryDone && !(j.jobRunState == "RUNNING")) x rest hd] at h
        rw [monitor_job_skip jobId x rest hx]
        exact ih.2 j h

/-- Oracle for the remote manager: listings indexed by the number of
    listing GETs already made (the remote may change between calls),
    the job id returned by the k-th mutating call, and the sequence
    of job documents served for each job id. -/
structure Env where
  listings : Nat → String → List IdPair
  jobIds : Nat → String
  polls : String → List Job

/-- Per-invocation bookkeeping: g counts listing GETs issued so far,
    k counts mutating calls issued so far, tr is the request trace. -/
structure St where
  g : Nat
  k : Nat
  tr : List RestCall
deriving Repr

/-- OVMRestClient.get_id_for_name including its GET of the listing
    endpoint: fetches base/type/id and scans it. -/
def clientGetIdForName (env : Env) (s : St) (object_type object_name : String) :
    Option IdPair × St :=
  (OVMRestClient.get_id_for_name (env.listings s.g object_type) object_name,
   { s with g := s.g + 1, tr := s.tr ++ [.getListing object_type] })

/-- Issue one mutating REST call; the remote responds with a job
    reference whose id.value is read by the caller. -/
def issueJob (env : Env) (s : St) (c : RestCall) : String × St :=
  (env.jobIds s.k, { s with k := s.k + 1, tr := s.tr ++ [c] })

/-- Outcome of one helper operation: the value the Python function
    returns (None possible, from monitor_job falling through), or
    divergence when the polling loop never terminates. -/
inductive OpOutcome where
  | diverged
  | value (r : Option Result)
deriving Repr, DecidableEq

/-- Run monitor_job against the oracle and append its polls to the
    trace. -/
def monitorInSt (env : Env) (s : St) (jobId : String) : OpOutcome × St :=
  let o := OVMRestClient.monitor_job jobId (env.polls jobId)
  ((match o.2 with
    | .pending => .diverged
    | .done r => .value r),
   { s with tr := s.tr ++ o.1 })

/-- Not-found record for a vm name (message from the format string
    Could not find a vm named %s.). -/
def notFoundVm (name : String) : Result :=
  { changed := some false, failed := some true,
    msg := some ("Could not find a vm named " ++ name ++ "."), resultId := none }

/-- Not-found record for a network name. -/
def notFoundNetwork (network : String) : Result :=
  { changed := some false, failed := some true,
    msg := some ("Could not find a network named " ++ network ++ "."),
    resultId := none }

/-- Not-found record for a virtual-disk name. -/
def notFoundVirtualDisk (virtual_disk : String) : Result :=
  { changed := some false, failed := some true,
    msg := some ("Could not find a virtual_disk named " ++ virtual_disk ++ "."),
    resultId := none }

/-- Creation payload (the dict POSTed to base/Vm), built by main from
    the invocation parameters and the effective limits. -/
structure VmSpec where
  repositoryId : Option IdPair
  serverPoolId : Option IdPair
  vmDomainType : String
  name : String
  cpuCount : Int
  cpuCountLimit : Int
  memory : Int
  memoryLimit : Int
  cpuPriority : Int
  cpuUtilizationCap : Int
  highAvailability : Bool
  vmMouseType : String
  keymapName : String
  bootOrder : Option (List String)
  osType : Option String
  networkInstallPath : Option String
  vmStartPolicy : Option String
deriving Repr

/-- OVMVmHelper.create: POST the spec to the Vm collection, then poll
    the returned job. -/
def OVMVmHelper.create (env : Env) (s : St) (_data : VmSpec) : OpOutcome × St :=
  let r := issueJob env s (.post "Vm")
  monitorInSt env r.2 r.1

/-- OVMVmHelper.delete: resolve the name; on failure return the
    not-found record without any DELETE; otherwise DELETE the vm and
    poll the returned job. -/
def OVMVmHelper.delete (env : Env) (s : St) (name : String) : OpOutcome × St :=
  let v := clientGetIdForName env s "Vm" name
  match v.1 with
  | none => (.value (some (notFoundVm name)), v.2)
  | some vm_id =>
    let r := issueJob env v.2 (.deleteCall "Vm" vm_id.value)
    monitorInSt env r.2 r.1

/-- OVMVmHelper.create_virtualnic: resolve the vm and the network
    (each failure short-circuits with a not-found record), POST the
    VirtualNic child, poll. -/
def OVMVmHelper.create_virtualnic (env : Env) (s : St)
    (name network _mac_address : String) : OpOutcome × St :=
  let v := clientGetIdForName env s "Vm" name
  match v.1 with
  | none => (.value (some (notFoundVm name)), v.2)
  | some vm_id =>
    let n := clientGetIdForName env v.2 "Network" network
    match n.1 with
    | none => (.value (some (notFoundNetwork network)), n.2)
    | some _ =>
      let r := issueJob env n.2 (.postChild "Vm" vm_id.value "VirtualNic")
      monitorInSt env r.2 r.1

/-- OVMVmHelper.create_diskmapping: resolve the vm and the virtual
    disk, POST the VmDiskMapping child, poll. -/
def OVMVmHelper.create_diskmapping (env : Env) (s : St)
    (name : String) (_slot : Int) (virtual_disk : String) : OpOutcome × St :=
  let v := clientGetIdForName env s "Vm" name
  match v.1 with
  | none => (.value (some (notFoundVm name)), v.2)
  | some vm_id =>
    let d := clientGetIdForName env v.2 "VirtualDisk" virtual_disk
    match d.1 with
    | none => (.value (some (notFoundVirtualDisk virtual_disk)), d.2)
    | some _ =>
      let r := issueJob env d.2 (.postChild "Vm" vm_id.value "VmDiskMapping")
      monitorInSt env r.2 r.1

/-- OVMVmHelper.state: resolve the vm, PUT the child resource named
    by the target state, poll. -/
def OVMVmHelper.state (env : Env) (s : St) (name state : String) : OpOutcome × St :=
  let v := clientGetIdForName env s "Vm" name
  match v.1 with
  | none => (.value (some (notFoundVm name)), v.2)
  | some vm_id =>
    let r := issueJob env v.2 (.putChild "Vm" vm_id.value state)
    monitorInSt env r.2 r.1

/-- OVMVmHelper.start: convenience wrapper over state. -/
def OVMVmHelper.start (env : Env) (s : St) (name : String) : OpOutcome × St :=
  OVMVmHelper.state env s name "start"

/-- One entry of the virtual_nics list parameter. -/
structure VirtualNic where
  network : String
  mac_address : String
deriving Repr, DecidableEq

/-- One entry of the disk_mappings list parameter. -/
structure DiskMapping where
  slot : Int
  virtual_disk : String
deriving Repr, DecidableEq

/-- Invocation parameters after AnsibleModule type coercion; fields
    with a default in the argument_spec carry it here, fields with no
    default are Option with none for an omitted parameter. -/
structure Params where
  state : String := "present"
  name : String
  ovm_user : String := ""
  ovm_pass : String := ""
  ovm_host : String := "https://127.0.0.1:7002"
  server_pool : String
  repository : String
  domain_type : String := "XEN_HVM"
  memory : Int := 4096
  memory_limit : Option Int := none
  cpu_count : Int := 2
  cpu_count_limit : Option Int := none
  cpu_priority : Int := 100
  cpu_utilization_cap : Int := 100
  high_availability : Bool := false
  mouse_type : String := "USB_TABLET"
  keymap_name : String := "en-us"
  boot_order : Option (List String) := none
  os_type : Option String := none
  network_install_path : Option String := none
  start_policy : Option String := none
  virtual_nics : Option (List VirtualNic) := none
  disk_mappings : Option (List DiskMapping) := none

/-- Values accepted for the state parameter by the argument_spec
    choices list. -/
def stateChoices : List String :=
  ["present", "absent", "start", "stop", "restart", "scale"]

/-- Values for the state parameter listed in the module
    DOCUMENTATION block (choices=present,absent,start,stop,restart). -/
def documentedStateChoices : List String :=
  ["present", "absent", "start", "stop", "restart"]

/-- Numeric pre-validation of main: memory must be a multiple of
    1024; a given memory_limit must be at least memory and a multiple
    of 1024; an omitted memory_limit defaults to memory and an
    omitted cpu_count_limit defaults to cpu_count.  Returns the
    effective (memory_limit, cpu_count_limit) or the fail_json
    message.  Python int modulo with positive divisor agrees with
    Int.emod here. -/
def validateParams (p : Params) : Except String (Int × Int) :=
  if p.memory % 1024 ≠ 0 then
    .error "memory must be a multitude of 1024"
  else
    match p.memory_limit with
    | none =>
      match p.cpu_count_limit with
      | none => .ok (p.memory, p.cpu_count)
      | some c => .ok (p.memory, c)
    | some ml =>
      if ml < p.memory then
        .error "memory_limit < memory"
      else if ml % 1024 ≠ 0 then
        .error "memory_limit must be a multitude of 1024"
      else
        match p.cpu_count_limit with
        | none => .ok (ml, p.cpu_count)
        | some c => .ok (ml, c)

/-- Creation payload exactly as main assembles it. -/
def mkVmSpec (p : Params) (memory_limit cpu_count_limit : Int)
    (repository_id server_pool_id : Option IdPair) : VmSpec :=
  { repositoryId := repository_id,
    serverPoolId := server_pool_id,
    vmDomainType := p.domain_type,
    name := p.name,
    cpuCount := p.cpu_count,
    cpuCountLimit := cpu_count_limit,
    memory := p.memory,
    memoryLimit := memory_limit,
    cpuPriority := p.cpu_priority,
    cpuUtilizationCap := p.cpu_utilization_cap,
    highAvailability := p.high_availability,
    vmMouseType := p.mouse_type,
    keymapName := p.keymap_name,
    bootOrder := p.boot_order,
    osType := p.os_type,
    networkInstallPath := p.network_install_path,
    vmStartPolicy := p.start_policy }

/-- Final reporting of main: an invocation outcome as seen by the
    host tool or the Python runtime. -/
inductive MainOutcome where
  | invalidChoice
  | failedValidation (msg : String)
  | assertionFailed
  | typeError
  | diverged
  | failJson (r : Result)
  | exitJson (r : Result)
deriving Repr, DecidableEq

/-- Lines 467 to 473 of main: default the failed key to False when
    absent, then fail_json or exit_json on it.  The None value (a
    helper returned monitor_job falling through) makes the membership
    test raise TypeError. -/
def finishResult : Option Result → MainOutcome
  | none => .typeError
  | some r =>
    let r := if r.failed = none then { r with failed := some false } else r
    if r.failed = some true then .failJson r else .exitJson r

/-- Route a helper outcome into the final reporting. -/
def finishOp : OpOutcome → MainOutcome
  | .diverged => .diverged
  | .value r => finishResult r

/-- The for loop over virtual_nics on the create path: each iteration
    overwrites the result variable with its own outcome. -/
def nicLoop (env : Env) (name : String) :
    List VirtualNic → Option Result → St → OpOutcome × St
  | [], prev, s => (.value prev, s)
  | n :: rest, _, s =>
    match OVMVmHelper.create_virtualnic env s name n.network n.mac_address with
    | (.diverged, s1) => (.diverged, s1)
    | (.value r, s1) => nicLoop env name rest r s1

/-- The for loop over disk_mappings on the create path. -/
def diskLoop (env : Env) (name : String) :
    List DiskMapping → Option Result → St → OpOutcome × St
  | [], prev, s => (.value prev, s)
  | d :: rest, _, s =>
    match OVMVmHelper.create_diskmapping env s name d.slot d.virtual_disk with
    | (.diverged, s1) => (.diverged, s1)
    | (.value r, s1) => diskLoop env name rest r s1

/-- Entry point main (source lines 315 to 473).  AnsibleModule
    rejects a state outside the choices list before the module body
    runs; the import-capability guards are omitted since the model
    assumes an interpreter with its standard packages.  Numeric
    pre-validation runs before the session is built, so a validation
    failure produces an empty request trace.  Then the repository,
    server pool and vm names are resolved, and the dispatch on
    (vm exists, requested state) runs; on the create path the result
    variable is overwritten by each NIC attach, each disk attach and
    the final start. -/
def mainRun (env : Env) (p : Params) : MainOutcome × List RestCall :=
  if p.state ∈ stateChoices then
    match validateParams p with
    | .error m => (.failedValidation m, [])
    | .ok (memory_limit, cpu_count_limit) =>
      let s0 : St := { g := 0, k := 0, tr := [] }
      let rp := clientGetIdForName env s0 "Repository" p.repository
      let sp := clientGetIdForName env rp.2 "ServerPool" p.server_pool
      let vm := clientGetIdForName env sp.2 "Vm" p.name
      match vm.1 with
      | some _ =>
        if p.state = "absent" then
          let r := OVMVmHelper.delete env vm.2 p.name
          (finishOp r.1, r.2.tr)
        else if p.state = "present" then
          (finishResult (some { failed := some false }), vm.2.tr)
        else if p.state ∈ ["start", "stop", "restart"] then
          let r := OVMVmHelper.state env vm.2 p.name p.state
          (finishOp r.1, r.2.tr)
        else
          (.assertionFailed, vm.2.tr)
      | none =>
        if p.state ∈ ["poweredon", "poweredoff", "present", "restarted", "suspended"] then
          let spec := mkVmSpec p memory_limit cpu_count_limit rp.1 sp.1
          let c := OVMVmHelper.create env vm.2 spec
          match c.1 with
          | .diverged => (.diverged, c.2.tr)
          | .value res0 =>
            match p.virtual_nics with
            | none => (.typeError, c.2.tr)
            | some nics =>
              match nicLoop env p.name nics res0 c.2 with
              | (.diverged, s5) => (.diverged, s5.tr)
              | (.value res1, s5) =>
                match p.disk_mappings with
                | none => (.typeError, s5.tr)
                | some disks =>
                  match diskLoop env p.name disks res1 s5 with
                  | (.diverged, s6) => (.diverged, s6.tr)
                  | (.value _res2, s6) =>
                    let st := OVMVmHelper.start env s6 p.name
                    (finishOp st.1, st.2.tr)
        else
          (finishResult (some { changed := some false, failed := some false }), vm.2.tr)
  else
    (.invalidChoice, [])

/-- C1 counterexample: a poll whose single response has summaryDone
    true and jobRunState FAILURE with id J1 and error boom does not
    return the record the claim states (msg Job J1 failed with: boom,
    without a trailing period); the code renders the message from the
    format string Job %s failed with: %s. and so appends a period. -/
theorem C1_counterexample :
    (OVMRestClient.monitor_job "J1" [⟨true, "FAILURE", "J1", "boom", "r"⟩]).2 ≠
      .done (some { changed := some false, failed := some true,
                    msg := some "Job J1 failed with: boom", resultId := none }) ∧
    (OVMRestClient.monitor_job "J1" [⟨true, "FAILURE", "J1", "boom", "r"⟩]).2 =
      .done (some { changed := some false, failed := some true,
                    msg := some "Job J1 failed with: boom.", resultId := none }) := by
  decide

/-- C1 (amended): for every polled job-status response with
    summaryDone true that the loop reaches (all earlier responses
    still count as running): on jobRunState FAILURE monitor_job
    returns changed false, failed true and the message
    Job id failed with: error followed by a period, and on
    jobRunState SUCCESS it returns changed true, failed false and
    the resultId of the response. -/
theorem C1_monitor_terminal (jobId : String) (pre : List Job) (j : Job) (rest : List Job)
    (hpre : ∀ x ∈ pre, x.summaryDone = false ∨ x.jobRunState = "RUNNING")
    (hj : j.summaryDone = true) :
    (j.jobRunState = "FAILURE" →
       (OVMRestClient.monitor_job jobId (pre ++ j :: rest)).2 =
         .done (some { changed := some false, failed := some true,
                       msg := some ("Job " ++ j.idValue ++ " failed with: " ++
                         j.error ++ "."),
                       resultId := none })) ∧
    (j.jobRunState = "SUCCESS" →
       (OVMRestClient.monitor_job jobId (pre ++ j :: rest)).2 =
         .done (some { changed := some true, failed := some false, msg := none,
                       resultId := some j.resultId })) := by
  rw [monitor_job_skip_all jobId pre (j :: rest) hpre]
  constructor
  · intro hF
    simp [OVMRestClient.monitor_job, hj, hF, failureRecord]
  · intro hS
    simp [OVMRestClient.monitor_job, hj, hS, successRecord]

/-- C1 witness: the amended theorem applied to one concrete FAILURE
    response and one concrete SUCCESS response. -/
theorem C1_monitor_terminal_witness :
    (OVMRestClient.monitor_job "J" ([] ++ (⟨true, "FAILURE", "J1", "boom", "r"⟩ : Job) :: [])).2 =
      .done (some { changed := some false, failed := some true,
                    msg := some ("Job " ++ (⟨true, "FAILURE", "J1", "boom", "r"⟩ : Job).idValue ++
                      " failed with: " ++ (⟨true, "FAILURE", "J1", "boom", "r"⟩ : Job).error ++ "."),
                    resultId := none }) ∧
    (OVMRestClient.monitor_job "J" ([] ++ (⟨true, "SUCCESS", "J2", "", "R2"⟩ : Job) :: [])).2 =
      .done (some { changed := some true, failed := some false, msg := none,
                    resultId := some (⟨true, "SUCCESS", "J2", "", "R2"⟩ : Job).resultId }) :=
  ⟨(C1_monitor_terminal "J" [] ⟨true, "FAILURE", "J1", "boom", "r"⟩ [] (by simp) rfl).1 rfl,
   (C1_monitor_terminal "J" [] ⟨true, "SUCCESS", "J2", "", "R2"⟩ [] (by simp) rfl).2 rfl⟩

/-- C5: get_id_for_name returns the first element of the listing
    whose name equals the argument and None when no element matches;
    with several matches the earliest one wins. -/
theorem C5_first_match (listing : List IdPair) (object_name : String) :
    ((∀ e ∈ listing, e.name ≠ object_name) →
       OVMRestClient.get_id_for_name listing object_name = none) ∧
    (∀ pre e post, listing = pre ++ e :: post → e.name = object_name →
       (∀ x ∈ pre, x.name ≠ object_name) →
       OVMRestClient.get_id_for_name listing object_name = some e) := by
  constructor
  · intro h
    induction listing with
    | nil => rfl
    | cons x rest ih =>
      have hx := h x (by simp)
      simp [OVMRestClient.get_id_for_name, hx]
      exact ih (fun y hy => h y (by simp [hy]))
  · intro pre e post hsplit he hpre
    subst hsplit
    induction pre with
    | nil => simp [OVMRestClient.get_id_for_name, he]
    | cons x rest ih =>
      have hx := hpre x (by simp)
      simp [OVMRestClient.get_id_for_name, hx]
      exact ih (fun y hy => hpre y (by simp [hy]))

/-- C5 witness: a listing with two elements named b; the scan returns
    the first of them (id 2, not id 3), and a missing name gives
    None. -/
theorem C5_first_match_witness :
    OVMRestClient.get_id_for_name
      [⟨"a", "1"⟩, ⟨"b", "2"⟩, ⟨"b", "3"⟩] "b" = some ⟨"b", "2"⟩ :=
  (C5_first_match [⟨"a", "1"⟩, ⟨"b", "2"⟩, ⟨"b", "3"⟩] "b").2
    [⟨"a", "1"⟩] ⟨"b", "2"⟩ [⟨"b", "3"⟩] rfl rfl (by decide)

/-- C6 counterexample: a response with summaryDone true and
    jobRunState ABORTED is not a terminal job state in the sense of
    the claim (neither SUCCESS nor FAILURE), yet the polling loop
    exits on it (outcome done none, not pending), so termination is
    not confined to SUCCESS or FAILURE responses. -/
theorem C6_counterexample :
    (Job.jobRunState ⟨true, "ABORTED", "J1", "", ""⟩ ≠ "SUCCESS" ∧
     Job.jobRunState ⟨true, "ABORTED", "J1", "", ""⟩ ≠ "FAILURE") ∧
    (OVMRestClient.monitor_job "J1" [⟨true, "ABORTED", "J1", "", ""⟩]).2 = .done none ∧
    (OVMRestClient.monitor_job "J1" [⟨true, "ABORTED", "J1", "", ""⟩]).2 ≠ .pending := by
  decide

/-- C6 (amended): the polling loop has no timeout, backoff or retry
    bound: on every finite sequence of responses each of which has
    summaryDone false or jobRunState RUNNING, monitor_job is still
    polling (pending); and the loop exits only at a response with
    summaryDone true and jobRunState other than RUNNING, where
    SUCCESS and FAILURE produce result records and every other state
    exits with no result. -/
theorem C6_unbounded_polling (jobId : String) (polls : List Job) :
    ((∀ j ∈ polls, j.summaryDone = false ∨ j.jobRunState = "RUNNING") →
       (OVMRestClient.monitor_job jobId polls).2 = .pending) ∧
    ((OVMRestClient.monitor_job jobId polls).2 ≠ .pending →
       ∃ j ∈ polls, j.summaryDone = true ∧ j.jobRunState ≠ "RUNNING") := by
  constructor
  · intro h
    have := monitor_job_skip_all jobId polls [] (by
      intro x hx
      exact h x hx)
    simpa using this
  · intro h
    by_cases hf : polls.find? (fun j => j.summaryDone && !(j.jobRunState == "RUNNING")) = none
    · exact absurd ((monitor_job_find jobId polls).1 hf) h
    · obtain ⟨j, hj⟩ := Option.ne_none_iff_exists'.1 hf
      refine ⟨j, List.mem_of_find?_eq_some hj, ?_⟩
      have := List.find?_some hj
      simp [Bool.and_eq_true, Bool.not_eq_true', beq_iff_eq] at this
      exact this

/-- C6 witness: the amended theorem applied to a concrete two-element
    all-running poll sequence (pending) and, through its second part,
    to a poll that exits on an ABORTED response. -/
theorem C6_unbounded_polling_witness :
    (OVMRestClient.monitor_job "J"
      [⟨false, "RUNNING", "J", "", ""⟩, ⟨true, "RUNNING", "J", "", ""⟩]).2 = .pending ∧
    ∃ j ∈ [(⟨true, "ABORTED", "J", "", ""⟩ : Job)],
      j.summaryDone = true ∧ j.jobRunState ≠ "RUNNING" :=
  ⟨(C6_unbounded_polling "J"
      [⟨false, "RUNNING", "J", "", ""⟩, ⟨true, "RUNNING", "J", "", ""⟩]).1 (by decide),
   (C6_unbounded_polling "J" [⟨true, "ABORTED", "J", "", ""⟩]).2 (by decide)⟩

/-- C7 counterexample: the first polled response has summaryDone true
    and jobRunState RUNNING, which is neither SUCCESS nor FAILURE,
    yet the poller does not fall through to an implicit exit: it
    keeps polling and the call returns an explicit success record
    from the next response. -/
theorem C7_counterexample :
    (Job.summaryDone ⟨true, "RUNNING", "J", "", ""⟩ = true ∧
     Job.jobRunState ⟨true, "RUNNING", "J", "", ""⟩ ≠ "SUCCESS" ∧
     Job.jobRunState ⟨true, "RUNNING", "J", "", ""⟩ ≠ "FAILURE") ∧
    (OVMRestClient.monitor_job "J"
       [⟨true, "RUNNING", "J", "", ""⟩, ⟨true, "SUCCESS", "J", "", "R1"⟩]).2 =
      .done (some { changed := some true, failed := some false, msg := none,
                    resultId := some "R1" }) := by
  decide

/-- C7 (amended): when the loop reaches a response with summaryDone
    true and jobRunState neither SUCCESS nor FAILURE nor RUNNING, it
    breaks out and monitor_job returns no record (implicit None). -/
theorem C7_implicit_exit (jobId : String) (pre : List Job) (j : Job) (rest : List Job)
    (hpre : ∀ x ∈ pre, x.summaryDone = false ∨ x.jobRunState = "RUNNING")
    (hj : j.summaryDone = true)
    (hF : j.jobRunState ≠ "FAILURE") (hS : j.jobRunState ≠ "SUCCESS")
    (hR : j.jobRunState ≠ "RUNNING") :
    (OVMRestClient.monitor_job jobId (pre ++ j :: rest)).2 = .done none := by
  rw [monitor_job_skip_all jobId pre (j :: rest) hpre]
  simp [OVMRestClient.monitor_job, hj, hF, hS, hR]

/-- C7 witness: the amended theorem applied to a poll whose second
    response is ABORTED after a running first response. -/
theorem C7_implicit_exit_witness :
    (OVMRestClient.monitor_job "J"
      ([(⟨false, "RUNNING", "J", "", ""⟩ : Job)] ++
        (⟨true, "ABORTED", "J", "", ""⟩ : Job) :: [])).2 = .done none :=
  C7_implicit_exit "J" [⟨false, "RUNNING", "J", "", ""⟩] ⟨true, "ABORTED", "J", "", ""⟩ []
    (by decide) rfl (by decide) (by decide) (by decide)

/-- C8: the argument_spec choices list for state admits the value
    scale in addition to the five documented values, the module
    DOCUMENTATION block lists only the five, and an invocation with
    state scale passes parameter validation (it is not rejected as an
    invalid choice). -/
theorem C8_scale_admitted :
    "scale" ∈ stateChoices ∧
    "scale" ∉ documentedStateChoices ∧
    stateChoices ≠ documentedStateChoices ∧
    (∀ v ∈ documentedStateChoices, v ∈ stateChoices) ∧
    (mainRun ⟨fun _ _ => [], fun _ => "", fun _ => []⟩
      { name := "vm01", server_pool := "Pool1", repository := "Repo1",
        state := "scale" }).1 ≠ .invalidChoice := by
  decide

theorem validateParams_error (p : Params)
    (h : p.memory % 1024 ≠ 0 ∨
         ∃ ml, p.memory_limit = some ml ∧ (ml < p.memory ∨ ml % 1024 ≠ 0)) :
    ∃ m, validateParams p = .error m := by
  by_cases hm : p.memory % 1024 = 0
  · rcases h with hmem | ⟨ml, hml, hbad⟩
    · exact absurd hm hmem
    · rcases hbad with hlt | hmod
      · exact ⟨"memory_limit < memory", by simp [validateParams, hm, hml, hlt]⟩
      · by_cases hlt : ml < p.memory
        · exact ⟨"memory_limit < memory", by simp [validateParams, hm, hml, hlt]⟩
        · exact ⟨"memory_limit must be a multitude of 1024",
            by simp [validateParams, hm, hml, hlt, hmod]⟩
  · exact ⟨"memory must be a multitude of 1024", by simp [validateParams, hm]⟩

/-- C2: an invocation whose memory is not an exact multiple of 1024,
    or whose given memory_limit is below memory or not a multiple of
    1024, fails before any network request (empty trace: either the
    choices rejection or the fail_json of the numeric validation);
    and an omitted memory_limit defaults to memory while an omitted
    cpu_count_limit defaults to cpu_count. -/
theorem C2_prevalidation (env : Env) (p : Params) :
    ((p.memory % 1024 ≠ 0 ∨
        ∃ ml, p.memory_limit = some ml ∧ (ml < p.memory ∨ ml % 1024 ≠ 0)) →
       (mainRun env p).2 = [] ∧
       ((mainRun env p).1 = .invalidChoice ∨
        ∃ m, (mainRun env p).1 = .failedValidation m)) ∧
    (p.memory % 1024 = 0 → p.memory_limit = none →
       validateParams p = .ok (p.memory, p.cpu_count_limit.getD p.cpu_count)) ∧
    (∀ ml, p.memory % 1024 = 0 → p.memory_limit = some ml → ¬ml < p.memory →
       ml % 1024 = 0 →
       validateParams p = .ok (ml, p.cpu_count_limit.getD p.cpu_count)) := by
  refine ⟨?_, ?_, ?_⟩
  · intro h
    obtain ⟨m, hmErr⟩ := validateParams_error p h
    by_cases hst : p.state ∈ stateChoices
    · refine ⟨?_, Or.inr ⟨m, ?_⟩⟩ <;> simp [mainRun, hst, hmErr]
    · refine ⟨?_, Or.inl ?_⟩ <;> simp [mainRun, hst]
  · intro hm hml
    rcases hcl : p.cpu_count_limit with _ | c <;>
      simp [validateParams, hm, hml, hcl]
  · intro ml hm hml hlt hmod
    rcases hcl : p.cpu_count_limit with _ | c <;>
      simp [validateParams, hm, hml, hlt, hmod, hcl]

/-- C2 witness: memory 4097 fails with an empty trace; memory 4096
    with both limits omitted validates to effective limits (4096, 2);
    memory_limit omitted with cpu_count_limit 7 gives (4096, 7); and
    memory_limit 8192 with cpu_count_limit 7 gives (8192, 7). -/
theorem C2_prevalidation_witness :
    ((mainRun ⟨fun _ _ => [], fun _ => "", fun _ => []⟩
        { name := "vm01", server_pool := "Pool1", repository := "Repo1",
          memory := 4097 }).2 = [] ∧
     ((mainRun ⟨fun _ _ => [], fun _ => "", fun _ => []⟩
        { name := "vm01", server_pool := "Pool1", repository := "Repo1",
          memory := 4097 }).1 = .invalidChoice ∨
      ∃ m, (mainRun ⟨fun _ _ => [], fun _ => "", fun _ => []⟩
        { name := "vm01", server_pool := "Pool1", repository := "Repo1",
          memory := 4097 }).1 = .failedValidation m)) ∧
    validateParams { name := "vm01", server_pool := "Pool1", repository := "Repo1" } =
      .ok (4096, 2) ∧
    validateParams { name := "vm01", server_pool := "Pool1", repository := "Repo1",
                     cpu_count_limit := some 7 } = .ok (4096, 7) ∧
    validateParams { name := "vm01", server_pool := "Pool1", repository := "Repo1",
                     memory_limit := some 8192,
                     cpu_count_limit := some 7 } = .ok (8192, 7) :=
  ⟨(C2_prevalidation ⟨fun _ _ => [], fun _ => "", fun _ => []⟩
      { name := "vm01", server_pool := "Pool1", repository := "Repo1",
        memory := 4097 }).1 (Or.inl (by decide)),
   (C2_prevalidation ⟨fun _ _ => [], fun _ => "", fun _ => []⟩
      { name := "vm01", server_pool := "Pool1", repository := "Repo1" }).2.1
     (by decide) rfl,
   (C2_prevalidation ⟨fun _ _ => [], fun _ => "", fun _ => []⟩
      { name := "vm01", server_pool := "Pool1", repository := "Repo1",
        cpu_count_limit := some 7 : Params }).2.1 (by decide) rfl,
   (C2_prevalidation ⟨fun _ _ => [], fun _ => "", fun _ => []⟩
      { name := "vm01", server_pool := "Pool1", repository := "Repo1",
        memory_limit := some 8192, cpu_count_limit := some 7 }).2.2 8192
     (by decide) rfl (by decide) (by decide)⟩

/-- C9: when the requested state is scale (accepted by the choices
    validation) and the vm name resolves to an existing vm, the
    dispatch in main falls into the final else branch and hits
    assert False, aborting instead of producing a result record. -/
theorem C9_scale_assert (env : Env) (p : Params) (ml cl : Int) (e : IdPair)
    (hstate : p.state = "scale")
    (hok : validateParams p = .ok (ml, cl))
    (hvm : OVMRestClient.get_id_for_name (env.listings 2 "Vm") p.name = some e) :
    (mainRun env p).1 = .assertionFailed := by
  simp [mainRun, clientGetIdForName, hstate, hok, hvm, stateChoices]

/-- C9 witness: concrete oracle whose Vm listing holds vm01; an
    invocation with state scale reaches the assertion failure. -/
theorem C9_scale_assert_witness :
    (mainRun
      ⟨fun _ t => if t = "Vm" then [⟨"vm01", "0004"⟩] else [], fun _ => "J", fun _ => []⟩
      { name := "vm01", server_pool := "Pool1", repository := "Repo1",
        state := "scale" }).1 = .assertionFailed :=
  C9_scale_assert
    ⟨fun _ t => if t = "Vm" then [⟨"vm01", "0004"⟩] else [], fun _ => "J", fun _ => []⟩
    { name := "vm01", server_pool := "Pool1", repository := "Repo1", state := "scale" }
    4096 2 ⟨"vm01", "0004"⟩ rfl rfl (by decide)

/-- Recognizer for DELETE requests in a trace. -/
def isDeleteCall : RestCall → Bool
  | .deleteCall _ _ => true
  | _ => false

theorem monitor_job_trace (jobId : String) (polls : List Job) :
    ∀ c ∈ (OVMRestClient.monitor_job jobId polls).1, c = .getJob jobId := by
  induction polls with
  | nil => intro c hc; simp [OVMRestClient.monitor_job] at hc
  | cons x rest ih =>
    intro c hc
    by_cases hs : x.summaryDone = true
    · by_cases hF : x.jobRunState = "FAILURE"
      · simp [OVMRestClient.monitor_job, hs, hF] at hc; exact hc
      · by_cases hS : x.jobRunState = "SUCCESS"
        · simp [OVMRestClient.monitor_job, hs, hF, hS] at hc; exact hc
        · by_cases hR : x.jobRunState = "RUNNING"
          · simp [OVMRestClient.monitor_job, hs, hF, hS, hR] at hc
            rcases hc with hc | hc
            · exact hc
            · exact ih c hc
          · simp [OVMRestClient.monitor_job, hs, hF, hS, hR] at hc; exact hc
    · simp [OVMRestClient.monitor_job, hs] at hc
      rcases hc with hc | hc
      · exact hc
      · exact ih c hc

theorem delete_resolved (env : Env) (s : St) (name : String) (e : IdPair)
    (hvm : OVMRestClient.get_id_for_name (env.listings s.g "Vm") name = some e) :
    OVMVmHelper.delete env s name =
      ((match (OVMRestClient.monitor_job (env.jobIds s.k) (env.polls (env.jobIds s.k))).2 with
        | .pending => .diverged
        | .done r => .value r),
       { g := s.g + 1, k := s.k + 1,
         tr := s.tr ++ [.getListing "Vm", .deleteCall "Vm" e.value] ++
           (OVMRestClient.monitor_job (env.jobIds s.k) (env.polls (env.jobIds s.k))).1 }) := by
  simp [OVMVmHelper.delete, clientGetIdForName, issueJob, monitorInSt, hvm]

/-- C4: delete resolves the name first; when it does not resolve the
    call returns changed false, failed true, msg Could not find a vm
    named name. and issues no DELETE (its only request is the listing
    GET); when it resolves, exactly one DELETE is issued followed by
    the job polls, and the returned record has changed true exactly
    when the terminal state of the polled job is SUCCESS. -/
theorem C4_delete_contract (env : Env) (s : St) (name : String) :
    (OVMRestClient.get_id_for_name (env.listings s.g "Vm") name = none →
       OVMVmHelper.delete env s name =
         (.value (some (notFoundVm name)),
          { s with g := s.g + 1, tr := s.tr ++ [.getListing "Vm"] })) ∧
    (∀ e, OVMRestClient.get_id_for_name (env.listings s.g "Vm") name = some e →
       (OVMVmHelper.delete env s name).2.tr =
         s.tr ++ [.getListing "Vm", .deleteCall "Vm" e.value] ++
           (OVMRestClient.monitor_job (env.jobIds s.k) (env.polls (env.jobIds s.k))).1 ∧
       ((OVMVmHelper.delete env s name).2.tr.drop s.tr.length).countP
           (fun c => isDeleteCall c) = 1 ∧
       ((∃ r, (OVMVmHelper.delete env s name).1 = .value (some r) ∧
           r.changed = some true) ↔
         stopState (env.polls (env.jobIds s.k)) = some "SUCCESS")) := by
  constructor
  · intro hnone
    simp [OVMVmHelper.delete, clientGetIdForName, hnone]
  · intro e hvm
    rw [delete_resolved env s name e hvm]
    refine ⟨rfl, ?_, ?_⟩
    · show ((s.tr ++ [RestCall.getListing "Vm", RestCall.deleteCall "Vm" e.value] ++
        (OVMRestClient.monitor_job (env.jobIds s.k) (env.polls (env.jobIds s.k))).1).drop
          s.tr.length).countP (fun c => isDeleteCall c) = 1
      rw [List.append_assoc, List.drop_left, List.countP_append]
      have hz : ((OVMRestClient.monitor_job (env.jobIds s.k)
          (env.polls (env.jobIds s.k))).1).countP (fun c => isDeleteCall c) = 0 := by
        rw [List.countP_eq_zero]
        intro c hc
        rw [monitor_job_trace _ _ c hc]
        simp [isDeleteCall]
      rw [hz]
      simp [List.countP_cons, isDeleteCall]
    · rcases hfind : (env.polls (env.jobIds s.k)).find?
        (fun (j : Job) => j.summaryDone && !(j.jobRunState == "RUNNING")) with _ | j
      · rw [(monitor_job_find (env.jobIds s.k) (env.polls (env.jobIds s.k))).1 hfind]
        simp [stopState, hfind]
      · rw [(monitor_job_find (env.jobIds s.k) (env.polls (env.jobIds s.k))).2 j hfind]
        by_cases hF : j.jobRunState = "FAILURE"
        · simp [hF, stopState, hfind, failureRecord]
        · by_cases hS : j.jobRunState = "SUCCESS"
          · simp [hF, hS, stopState, hfind, successRecord]
          · simp [hF, hS, stopState, hfind]

/-- C4 witness: against an oracle with an empty Vm listing, delete
    returns the not-found record and its only request is the listing
    GET. -/
theorem C4_delete_contract_witness :
    OVMVmHelper.delete ⟨fun _ _ => [], fun _ => "", fun _ => []⟩ ⟨0, 0, []⟩ "vm01" =
      (.value (some (notFoundVm "vm01")),
       { g := 1, k := 0, tr := [RestCall.getListing "Vm"] }) :=
  (C4_delete_contract ⟨fun _ _ => [], fun _ => "", fun _ => []⟩ ⟨0, 0, []⟩ "vm01").1 rfl

theorem monitor_job_single_success (jobId : String) (sj : Job)
    (hsd : sj.summaryDone = true) (hss : sj.jobRunState = "SUCCESS") :
    OVMRestClient.monitor_job jobId [sj] =
      ([.getJob jobId], .done (some (successRecord sj))) := by
  simp [OVMRestClient.monitor_job, hsd, hss]

theorem create_virtualnic_success (env : Env) (s : St)
    (vmName network mac : String) (vmEl : IdPair) (jid : String) (sj : Job)
    (hvm : OVMRestClient.get_id_for_name (env.listings s.g "Vm") vmName = some vmEl)
    (hnet : (OVMRestClient.get_id_for_name
      (env.listings (s.g + 1) "Network") network).isSome = true)
    (hjid : env.jobIds s.k = jid)
    (hpoll : env.polls jid = [sj])
    (hsd : sj.summaryDone = true) (hss : sj.jobRunState = "SUCCESS") :
    OVMVmHelper.create_virtualnic env s vmName network mac =
      (.value (some (successRecord sj)),
       { g := s.g + 2, k := s.k + 1,
         tr := s.tr ++ [RestCall.getListing "Vm", RestCall.getListing "Network",
           RestCall.postChild "Vm" vmEl.value "VirtualNic", RestCall.getJob jid] }) := by
  obtain ⟨ne, hne⟩ := Option.isSome_iff_exists.mp hnet
  simp [OVMVmHelper.create_virtualnic, clientGetIdForName, issueJob, monitorInSt,
    hvm, hne, hjid, hpoll, monitor_job_single_success jid sj hsd hss]

theorem create_diskmapping_success (env : Env) (s : St)
    (vmName : String) (slot : Int) (virtual_disk : String)
    (vmEl : IdPair) (jid : String) (sj : Job)
    (hvm : OVMRestClient.get_id_for_name (env.listings s.g "Vm") vmName = some vmEl)
    (hdisk : (OVMRestClient.get_id_for_name
      (env.listings (s.g + 1) "VirtualDisk") virtual_disk).isSome = true)
    (hjid : env.jobIds s.k = jid)
    (hpoll : env.polls jid = [sj])
    (hsd : sj.summaryDone = true) (hss : sj.jobRunState = "SUCCESS") :
    OVMVmHelper.create_diskmapping env s vmName slot virtual_disk =
      (.value (some (successRecord sj)),
       { g := s.g + 2, k := s.k + 1,
         tr := s.tr ++ [RestCall.getListing "Vm", RestCall.getListing "VirtualDisk",
           RestCall.postChild "Vm" vmEl.value "VmDiskMapping", RestCall.getJob jid] }) := by
  obtain ⟨de, hde⟩ := Option.isSome_iff_exists.mp hdisk
  simp [OVMVmHelper.create_diskmapping, clientGetIdForName, issueJob, monitorInSt,
    hvm, hde, hjid, hpoll, monitor_job_single_success jid sj hsd hss]

theorem state_success (env : Env) (s : St) (vmName target : String)
    (vmEl : IdPair) (jid : String) (sj : Job)
    (hvm : OVMRestClient.get_id_for_name (env.listings s.g "Vm") vmName = some vmEl)
    (hjid : env.jobIds s.k = jid)
    (hpoll : env.polls jid = [sj])
    (hsd : sj.summaryDone = true) (hss : sj.jobRunState = "SUCCESS") :
    OVMVmHelper.state env s vmName target =
      (.value (some (successRecord sj)),
       { g := s.g + 1, k := s.k + 1,
         tr := s.tr ++ [RestCall.getListing "Vm",
           RestCall.putChild "Vm" vmEl.value target, RestCall.getJob jid] }) := by
  simp [OVMVmHelper.state, clientGetIdForName, issueJob, monitorInSt,
    hvm, hjid, hpoll, monitor_job_single_success jid sj hsd hss]

theorem create_success (env : Env) (s : St) (spec : VmSpec) (jid : String) (sj : Job)
    (hjid : env.jobIds s.k = jid)
    (hpoll : env.polls jid = [sj])
    (hsd : sj.summaryDone = true) (hss : sj.jobRunState = "SUCCESS") :
    OVMVmHelper.create env s spec =
      (.value (some (successRecord sj)),
       { g := s.g, k := s.k + 1,
         tr := s.tr ++ [RestCall.post "Vm", RestCall.getJob jid] }) := by
  simp [OVMVmHelper.create, issueJob, monitorInSt,
    hjid, hpoll, monitor_job_single_success jid sj hsd hss]

/-- Per-nic request block on the all-success create path. -/
def nicBlock (vmEl : IdPair) (jid : String) : List RestCall :=
  [RestCall.getListing "Vm", RestCall.getListing "Network",
   RestCall.postChild "Vm" vmEl.value "VirtualNic", RestCall.getJob jid]

/-- Per-disk request block on the all-success create path. -/
def diskBlock (vmEl : IdPair) (jid : String) : List RestCall :=
  [RestCall.getListing "Vm", RestCall.getListing "VirtualDisk",
   RestCall.postChild "Vm" vmEl.value "VmDiskMapping", RestCall.getJob jid]

theorem nicLoop_all_success (env : Env) (vmName : String) (vmEl : IdPair)
    (jid : String) (sj : Job)
    (hvm : ∀ g, 3 ≤ g →
      OVMRestClient.get_id_for_name (env.listings g "Vm") vmName = some vmEl)
    (hjid : ∀ k, env.jobIds k = jid)
    (hpoll : env.polls jid = [sj])
    (hsd : sj.summaryDone = true) (hss : sj.jobRunState = "SUCCESS") :
    ∀ (nics : List VirtualNic) (prev : Option Result) (s : St), 3 ≤ s.g →
      (∀ n ∈ nics, ∀ g, (OVMRestClient.get_id_for_name
        (env.listings g "Network") n.network).isSome = true) →
      nicLoop env vmName nics prev s =
        (.value (if nics.isEmpty then prev else some (successRecord sj)),
         { g := s.g + 2 * nics.length, k := s.k + nics.length,
           tr := s.tr ++ (List.replicate nics.length (nicBlock vmEl jid)).flatten }) := by
  intro nics
  induction nics with
  | nil =>
    intro prev s _ _
    simp [nicLoop]
  | cons n rest ih =>
    intro prev s hg hnet
    have hstep := create_virtualnic_success env s vmName n.network n.mac_address vmEl jid sj
      (hvm s.g hg) (hnet n (by simp) (s.g + 1)) (hjid s.k) hpoll hsd hss
    rw [show nicLoop env vmName (n :: rest) prev s =
      (match OVMVmHelper.create_virtualnic env s vmName n.network n.mac_address with
       | (.diverged, s1) => (.diverged, s1)
       | (.value r, s1) => nicLoop env vmName rest r s1) from rfl]
    rw [hstep]
    dsimp only
    rw [ih (some (successRecord sj))
      { g := s.g + 2, k := s.k + 1,
        tr := s.tr ++ [RestCall.getListing "Vm", RestCall.getListing "Network",
          RestCall.postChild "Vm" vmEl.value "VirtualNic", RestCall.getJob jid] }
      (by simp; omega) (fun m hm => hnet m (by simp [hm]))]
    rw [ite_self]
    have hif : ((n :: rest).isEmpty : Bool) = false := rfl
    rw [hif]
    simp only [List.replicate_succ, List.flatten_cons, St.mk.injEq, if_false,
      Bool.false_eq_true, List.length_cons, Prod.mk.injEq, OpOutcome.value.injEq,
      nicBlock]
    refine ⟨trivial, by omega, by omega, by simp [List.append_assoc]⟩

theorem diskLoop_all_success (env : Env) (vmName : String) (vmEl : IdPair)
    (jid : String) (sj : Job)
    (hvm : ∀ g, 3 ≤ g →
      OVMRestClient.get_id_for_name (env.listings g "Vm") vmName = some vmEl)
    (hjid : ∀ k, env.jobIds k = jid)
    (hpoll : env.polls jid = [sj])
    (hsd : sj.summaryDone = true) (hss : sj.jobRunState = "SUCCESS") :
    ∀ (disks : List DiskMapping) (prev : Option Result) (s : St), 3 ≤ s.g →
      (∀ d ∈ disks, ∀ g, (OVMRestClient.get_id_for_name
        (env.listings g "VirtualDisk") d.virtual_disk).isSome = true) →
      diskLoop env vmName disks prev s =
        (.value (if disks.isEmpty then prev else some (successRecord sj)),
         { g := s.g + 2 * disks.length, k := s.k + disks.length,
           tr := s.tr ++ (List.replicate disks.length (diskBlock vmEl jid)).flatten }) := by
  intro disks
  induction disks with
  | nil =>
    intro prev s _ _
    simp [diskLoop]
  | cons d rest ih =>
    intro prev s hg hdisk
    have hstep := create_diskmapping_success env s vmName d.slot d.virtual_disk vmEl jid sj
      (hvm s.g hg) (hdisk d (by simp) (s.g + 1)) (hjid s.k) hpoll hsd hss
    rw [show diskLoop env vmName (d :: rest) prev s =
      (match OVMVmHelper.create_diskmapping env s vmName d.slot d.virtual_disk with
       | (.diverged, s1) => (.diverged, s1)
       | (.value r, s1) => diskLoop env vmName rest r s1) from rfl]
    rw [hstep]
    dsimp only
    rw [ih (some (successRecord sj))
      { g := s.g + 2, k := s.k + 1,
        tr := s.tr ++ [RestCall.getListing "Vm", RestCall.getListing "VirtualDisk",
          RestCall.postChild "Vm" vmEl.value "VmDiskMapping", RestCall.getJob jid] }
      (by simp; omega) (fun m hm => hdisk m (by simp [hm]))]
    rw [ite_self]
    have hif : ((d :: rest).isEmpty : Bool) = false := rfl
    rw [hif]
    simp only [List.replicate_succ, List.flatten_cons, St.mk.injEq, if_false,
      Bool.false_eq_true, List.length_cons, Prod.mk.injEq, OpOutcome.value.injEq,
      diskBlock]
    refine ⟨trivial, by omega, by omega, by simp [List.append_assoc]⟩

/-- C3: for a vm name that does not resolve at the initial lookup,
    requested state present, N virtual_nics entries and M
    disk_mappings entries, with every later resolution succeeding and
    every job polling to a single SUCCESS response, main issues the
    three resolution GETs, then exactly one create POST, then exactly
    N VirtualNic child POSTs, then exactly M VmDiskMapping child
    POSTs, then exactly one start PUT, in that order, each mutating
    call followed by its job poll. -/
theorem C3_create_sequence (env : Env) (p : Params) (vmEl : IdPair) (jid : String)
    (sj : Job) (ml cl : Int) (nics : List VirtualNic) (disks : List DiskMapping)
    (hstate : p.state = "present")
    (hok : validateParams p = .ok (ml, cl))
    (hnics : p.virtual_nics = some nics)
    (hdisks : p.disk_mappings = some disks)
    (hvm0 : OVMRestClient.get_id_for_name (env.listings 2 "Vm") p.name = none)
    (hvm : ∀ g, 3 ≤ g →
      OVMRestClient.get_id_for_name (env.listings g "Vm") p.name = some vmEl)
    (hnet : ∀ n ∈ nics, ∀ g, (OVMRestClient.get_id_for_name
      (env.listings g "Network") n.network).isSome = true)
    (hdisk : ∀ d ∈ disks, ∀ g, (OVMRestClient.get_id_for_name
      (env.listings g "VirtualDisk") d.virtual_disk).isSome = true)
    (hjid : ∀ k, env.jobIds k = jid)
    (hpoll : env.polls jid = [sj])
    (hsd : sj.summaryDone = true) (hss : sj.jobRunState = "SUCCESS") :
    mainRun env p =
      (.exitJson (successRecord sj),
       [RestCall.getListing "Repository", RestCall.getListing "ServerPool",
        RestCall.getListing "Vm", RestCall.post "Vm", RestCall.getJob jid] ++
       (List.replicate nics.length (nicBlock vmEl jid)).flatten ++
       (List.replicate disks.length (diskBlock vmEl jid)).flatten ++
       [RestCall.getListing "Vm", RestCall.putChild "Vm" vmEl.value "start",
        RestCall.getJob jid]) := by
  have h1 : p.state ∈ stateChoices := by rw [hstate]; decide
  simp only [mainRun, if_pos h1, hok]
  simp only [clientGetIdForName]
  norm_num
  rw [hvm0]
  dsimp only
  rw [hstate]
  norm_num
  rw [create_success env
    { g := 3, k := 0,
      tr := [RestCall.getListing "Repository", RestCall.getListing "ServerPool",
        RestCall.getListing "Vm"] } _ jid sj (hjid 0) hpoll hsd hss]
  dsimp only
  rw [hnics]
  dsimp only
  rw [nicLoop_all_success env p.name vmEl jid sj hvm hjid hpoll hsd hss nics
    (some (successRecord sj))
    { g := 3, k := 0 + 1,
      tr := [RestCall.getListing "Repository", RestCall.getListing "ServerPool",
        RestCall.getListing "Vm"] ++ [RestCall.post "Vm", RestCall.getJob jid] }
    (by norm_num) hnet]
  rw [ite_self]
  dsimp only
  rw [hdisks]
  dsimp only
  rw [diskLoop_all_success env p.name vmEl jid sj hvm hjid hpoll hsd hss disks
    (some (successRecord sj))
    { g := 3 + 2 * nics.length, k := 0 + 1 + nics.length,
      tr := [RestCall.getListing "Repository", RestCall.getListing "ServerPool",
          RestCall.getListing "Vm"] ++ [RestCall.post "Vm", RestCall.getJob jid] ++
        (List.replicate nics.length (nicBlock vmEl jid)).flatten }
    (by dsimp only; omega) hdisk]
  rw [ite_self]
  dsimp only [OVMVmHelper.start]
  rw [state_success env
    { g := 3 + 2 * nics.length + 2 * disks.length,
      k := 0 + 1 + nics.length + disks.length,
      tr := [RestCall.getListing "Repository", RestCall.getListing "ServerPool",
            RestCall.getListing "Vm"] ++ [RestCall.post "Vm", RestCall.getJob jid] ++
          (List.replicate nics.length (nicBlock vmEl jid)).flatten ++
        (List.replicate disks.length (diskBlock vmEl jid)).flatten }
    p.name "start" vmEl jid sj
    (hvm (3 + 2 * nics.length + 2 * disks.length) (by omega))
    (hjid (0 + 1 + nics.length + disks.length)) hpoll hsd hss]
  dsimp only
  simp [finishOp, finishResult, successRecord, List.append_assoc]

/-- C3 witness: the sequencing theorem applied to a concrete oracle
    with one NIC and one disk mapping, every lookup succeeding and
    every job finishing in one SUCCESS poll. -/
theorem C3_create_sequence_witness :
    mainRun
      ⟨fun g t =>
        if t = "Vm" then (if 3 ≤ g then [⟨"vm01", "0004"⟩] else [])
        else if t = "Network" then [⟨"net0", "N1"⟩]
        else if t = "VirtualDisk" then [⟨"d0", "D1"⟩]
        else [],
       fun _ => "J1", fun _ => [⟨true, "SUCCESS", "J1", "", "R1"⟩]⟩
      { name := "vm01", server_pool := "Pool1", repository := "Repo1",
        virtual_nics := some [⟨"net0", "00:11"⟩],
        disk_mappings := some [⟨0, "d0"⟩] } =
      (.exitJson (successRecord ⟨true, "SUCCESS", "J1", "", "R1"⟩),
       [RestCall.getListing "Repository", RestCall.getListing "ServerPool",
        RestCall.getListing "Vm", RestCall.post "Vm", RestCall.getJob "J1"] ++
       (List.replicate ([(⟨"net0", "00:11"⟩ : VirtualNic)]).length
         (nicBlock ⟨"vm01", "0004"⟩ "J1")).flatten ++
       (List.replicate ([(⟨0, "d0"⟩ : DiskMapping)]).length
         (diskBlock ⟨"vm01", "0004"⟩ "J1")).flatten ++
       [RestCall.getListing "Vm",
        RestCall.putChild "Vm" (IdPair.value ⟨"vm01", "0004"⟩) "start",
        RestCall.getJob "J1"]) :=
  C3_create_sequence _ _ ⟨"vm01", "0004"⟩ "J1" ⟨true, "SUCCESS", "J1", "", "R1"⟩ 4096 2
    [⟨"net0", "00:11"⟩] [⟨0, "d0"⟩] rfl rfl rfl rfl (by decide)
    (fun g hg => by simp [hg, OVMRestClient.get_id_for_name])
    (by intro n hn g; simp at hn; subst hn; rfl)
    (by intro d hd g; simp at hd; subst hd; rfl)
    (fun _ => rfl) rfl rfl rfl

theorem create_virtualnic_net_missing (env : Env) (s : St)
    (vmName network mac : String) (vmEl : IdPair)
    (hvm : OVMRestClient.get_id_for_name (env.listings s.g "Vm") vmName = some vmEl)
    (hnet : OVMRestClient.get_id_for_name
      (env.listings (s.g + 1) "Network") network = none) :
    OVMVmHelper.create_virtualnic env s vmName network mac =
      (.value (some (notFoundNetwork network)),
       { g := s.g + 2, k := s.k,
         tr := s.tr ++ [RestCall.getListing "Vm", RestCall.getListing "Network"] }) := by
  simp [OVMVmHelper.create_virtualnic, clientGetIdForName, hvm, hnet]

/-- C10: on the create path with one virtual NIC whose network does
    not resolve (the NIC attach returns a failed not-found record)
    and no disk mappings, the result variable is overwritten by each
    successive operation, so when the final start polls to SUCCESS
    the module reports exit_json with changed true and failed false;
    the trace shows no VirtualNic child POST ever happened, and the
    overwritten NIC record carried failed true. -/
theorem C10_result_overwritten (env : Env) (p : Params) (vmEl : IdPair) (jid : String)
    (sj : Job) (ml cl : Int) (nic : VirtualNic)
    (hstate : p.state = "present")
    (hok : validateParams p = .ok (ml, cl))
    (hnics : p.virtual_nics = some [nic])
    (hdisks : p.disk_mappings = some [])
    (hvm0 : OVMRestClient.get_id_for_name (env.listings 2 "Vm") p.name = none)
    (hvm : ∀ g, 3 ≤ g →
      OVMRestClient.get_id_for_name (env.listings g "Vm") p.name = some vmEl)
    (hnet : ∀ g, OVMRestClient.get_id_for_name
      (env.listings g "Network") nic.network = none)
    (hjid : ∀ k, env.jobIds k = jid)
    (hpoll : env.polls jid = [sj])
    (hsd : sj.summaryDone = true) (hss : sj.jobRunState = "SUCCESS") :
    mainRun env p =
      (.exitJson (successRecord sj),
       [RestCall.getListing "Repository", RestCall.getListing "ServerPool",
        RestCall.getListing "Vm", RestCall.post "Vm", RestCall.getJob jid,
        RestCall.getListing "Vm", RestCall.getListing "Network",
        RestCall.getListing "Vm", RestCall.putChild "Vm" vmEl.value "start",
        RestCall.getJob jid]) ∧
    (notFoundNetwork nic.network).failed = some true ∧
    (successRecord sj).failed = some false := by
  refine ⟨?_, rfl, rfl⟩
  have h1 : p.state ∈ stateChoices := by rw [hstate]; decide
  simp only [mainRun, if_pos h1, hok]
  simp only [clientGetIdForName]
  norm_num
  rw [hvm0]
  dsimp only
  rw [hstate]
  norm_num
  rw [create_success env
    { g := 3, k := 0,
      tr := [RestCall.getListing "Repository", RestCall.getListing "ServerPool",
        RestCall.getListing "Vm"] } _ jid sj (hjid 0) hpoll hsd hss]
  dsimp only
  rw [hnics]
  dsimp only
  rw [show nicLoop env p.name [nic] (some (successRecord sj))
      { g := 3, k := 0 + 1,
        tr := [RestCall.getListing "Repository", RestCall.getListing "ServerPool",
          RestCall.getListing "Vm"] ++ [RestCall.post "Vm", RestCall.getJob jid] } =
    (match OVMVmHelper.create_virtualnic env
        { g := 3, k := 0 + 1,
          tr := [RestCall.getListing "Repository", RestCall.getListing "ServerPool",
            RestCall.getListing "Vm"] ++ [RestCall.post "Vm", RestCall.getJob jid] }
        p.name nic.network nic.mac_address with
     | (.diverged, s1) => (.diverged, s1)
     | (.value r, s1) => nicLoop env p.name [] r s1) from rfl]
  rw [create_virtualnic_net_missing env
    { g := 3, k := 0 + 1,
      tr := [RestCall.getListing "Repository", RestCall.getListing "ServerPool",
        RestCall.getListing "Vm"] ++ [RestCall.post "Vm", RestCall.getJob jid] }
    p.name nic.network nic.mac_address vmEl (hvm 3 (by omega)) (hnet 4)]
  dsimp only [nicLoop]
  rw [hdisks]
  dsimp only [diskLoop]
  dsimp only [OVMVmHelper.start]
  rw [state_success env
    { g := 3 + 2, k := 0 + 1,
      tr := [RestCall.getListing "Repository", RestCall.getListing "ServerPool",
          RestCall.getListing "Vm"] ++ [RestCall.post "Vm", RestCall.getJob jid] ++
        [RestCall.getListing "Vm", RestCall.getListing "Network"] }
    p.name "start" vmEl jid sj (hvm 5 (by omega)) (hjid 1) hpoll hsd hss]
  dsimp only
  simp [finishOp, finishResult, successRecord, List.append_assoc]

/-- C10 witness: concrete oracle with no Network listing; the NIC
    attach fails to resolve, the start succeeds, and the module
    reports success. -/
theorem C10_result_overwritten_witness :
    mainRun
      ⟨fun g t =>
        if t = "Vm" then (if 3 ≤ g then [⟨"vm01", "0004"⟩] else [])
        else [],
       fun _ => "J1", fun _ => [⟨true, "SUCCESS", "J1", "", "R1"⟩]⟩
      { name := "vm01", server_pool := "Pool1", repository := "Repo1",
        virtual_nics := some [⟨"netX", "00:11"⟩],
        disk_mappings := some [] } =
      (.exitJson (successRecord ⟨true, "SUCCESS", "J1", "", "R1"⟩),
       [RestCall.getListing "Repository", RestCall.getListing "ServerPool",
        RestCall.getListing "Vm", RestCall.post "Vm", RestCall.getJob "J1",
        RestCall.getListing "Vm", RestCall.getListing "Network",
        RestCall.getListing "Vm",
        RestCall.putChild "Vm" (IdPair.value ⟨"vm01", "0004"⟩) "start",
        RestCall.getJob "J1"]) ∧
    (notFoundNetwork (VirtualNic.network ⟨"netX", "00:11"⟩)).failed = some true ∧
    (successRecord ⟨true, "SUCCESS", "J1", "", "R1"⟩).failed = some false :=
  C10_result_overwritten _ _ ⟨"vm01", "0004"⟩ "J1" ⟨true, "SUCCESS", "J1", "", "R1"⟩
    4096 2 ⟨"netX", "00:11"⟩ rfl rfl rfl rfl (by decide)
    (fun g hg => by simp [hg, OVMRestClient.get_id_for_name])
    (fun g => rfl) (fun _ => rfl) rfl rfl rfl
